import Mathlib

/-!
Verification of the applicant intake and verification workflow.

The pure helpers `parseRequestBody` (src/server/routes/_helpers.ts) and
`formatErrorResponse` (src/server/index.ts) are embedded directly from the
source.  The route handler files (social-qualify-form.ts,
contractor-request.ts) and the shared schemas (shared/schemas.ts) are not
part of the provided sources, only their tests are; those components are
modelled from the specification, as marked on each definition.
-/

namespace Intake

/-- Result of normalising a request body: a parsed value, a thrown parse
error carrying the error message, or no body at all. -/
inductive ParseOutcome (α : Type) where
  | ok (value : α)
  | err (msg : String)
  | noBody
deriving DecidableEq

/-- A JavaScript request body as seen by parseRequestBody: null, undefined,
an already-parsed object, a raw byte buffer, a text string, or any other
primitive value (number, boolean, symbol, ...). -/
inductive RawBody (α : Type) where
  | jsNull
  | jsUndefined
  | obj (o : α)
  | buffer (bytes : List Nat)
  | str (s : String)
  | otherPrim
deriving DecidableEq

/-- Embedding of parseRequestBody from src/server/routes/_helpers.ts.
The external library functions JSON.parse and the UTF-8 decoding of a
Node Buffer are passed in as the parameters parse and decode; parse
returns none exactly when JSON.parse would throw. -/
def parseRequestBody {α : Type} (parse : String → Option α)
    (decode : List Nat → String) : RawBody α → ParseOutcome α
  | .jsNull => .noBody
  | .jsUndefined => .noBody
  | .obj o => .ok o
  | .buffer bytes =>
      match parse (decode bytes) with
      | some v => .ok v
      | none => .err "Invalid JSON body (buffer)"
  | .str s =>
      match parse s with
      | some v => .ok v
      | none => .err "Invalid JSON body (string)"
  | .otherPrim => .noBody

/-- Body of an error response produced by the global error handler in
src/server/index.ts; the error field is none when the JSON body omits it. -/
structure ErrorBody where
  success : Bool
  message : String
  error : Option String
deriving DecidableEq

/-- Embedding of formatErrorResponse from src/server/index.ts.  The Error
argument is represented by its message and stack strings, and env is the
already-resolved environment value (the nodeEnv argument when given,
otherwise NODE_ENV; none when unset). -/
def formatErrorResponse (errMessage errStack : String)
    (env : Option String) : ErrorBody :=
  { success := false
  , message := "Server error: " ++ errMessage
  , error := if env = some "development" then some errStack else none }

/-- Embedding of the global error handling middleware of
src/server/index.ts: an unhandled exception is answered with status 500
and the formatErrorResponse body. -/
def globalErrorHandler (errMessage errStack : String)
    (env : Option String) : Nat × ErrorBody :=
  (500, formatErrorResponse errMessage errStack env)

/-- Modelled from the spec: the basic email-shape pattern used by the
qualification and contractor schemas (shared/schemas.ts is missing from
the provided sources). -/
def emailShape (s : String) : Bool := s.data.any (fun c => c = '@')

/-- Modelled from the spec: the decoded qualification payload before
schema validation; every field may be absent. -/
structure QualifyBody where
  email : Option String
  phone : Option String
  redditUsername : Option String
  twitterUsername : Option String
  youtubeUsername : Option String
  facebookUsername : Option String
deriving DecidableEq

/-- Modelled from the spec: a qualification payload that passed the
qualification schema. -/
structure QualifyForm where
  email : String
  phone : String
  redditUsername : String
  twitterUsername : Option String
  youtubeUsername : Option String
  facebookUsername : Option String
deriving DecidableEq

/-- Modelled from the spec: the qualification schema of shared/schemas.ts
(missing from the provided sources): email must match the email-shape
pattern, phone must be present, redditUsername is required non-empty, the
three optional handles default to absent; a failure reports the first
violated field. -/
def validateQualify (b : QualifyBody) : Except String QualifyForm :=
  match b.email with
  | none => .error "Invalid email address"
  | some e =>
    if emailShape e = false then .error "Invalid email address"
    else
      match b.phone with
      | none => .error "Phone number is required"
      | some p =>
        if p = "" then .error "Phone number is required"
        else
          match b.redditUsername with
          | none => .error "Reddit username is required"
          | some r =>
            if r = "" then .error "Reddit username is required"
            else .ok
              { email := e, phone := p, redditUsername := r
              , twitterUsername := b.twitterUsername
              , youtubeUsername := b.youtubeUsername
              , facebookUsername := b.facebookUsername }

/-- Modelled from the spec: the decoded contractor-request payload before
schema validation. -/
structure ContractorBody where
  email : Option String
  companySlug : Option String
  companyName : Option String
deriving DecidableEq

/-- Modelled from the spec: a contractor-request payload that passed the
contractor schema. -/
structure ContractorForm where
  email : String
  companySlug : String
  companyName : String
deriving DecidableEq

/-- Modelled from the spec: the contractor-request schema of
shared/schemas.ts (missing from the provided sources): email must match
the email shape, companySlug and companyName are required non-empty. -/
def validateContractor (b : ContractorBody) : Except String ContractorForm :=
  match b.email with
  | none => .error "Invalid email address"
  | some e =>
    if emailShape e = false then .error "Invalid email address"
    else
      match b.companySlug with
      | none => .error "Company slug is required"
      | some slug =>
        if slug = "" then .error "Company slug is required"
        else
          match b.companyName with
          | none => .error "Company name is required"
          | some name =>
            if name = "" then .error "Company name is required"
            else .ok { email := e, companySlug := slug, companyName := name }

/-- Modelled from the spec: the token-endpoint response of the identity
provider, as its HTTP success flag and the optional access token field of
its payload. -/
structure TokenResponse where
  ok : Bool
  accessToken : Option String
deriving DecidableEq

/-- Modelled from the spec: the profile-endpoint response of the identity
provider: its HTTP success flag and whether the payload contains a usable
identity marker for the requested handle. -/
structure ProfileResponse where
  ok : Bool
  hasIdentity : Bool
deriving DecidableEq

/-- One outbound call to the external provider either throws a network
error or yields a response. -/
inductive CallResult (α : Type) where
  | thrown
  | response (r : α)
deriving DecidableEq

/-- Modelled from the spec: the behaviour of the external identity
provider during one request. -/
structure ProviderEnv where
  tokenCall : CallResult TokenResponse
  profileCall : CallResult ProfileResponse
deriving DecidableEq

/-- Outcome of the identity verifier. -/
inductive VerifyOutcome where
  | verified
  | failed
deriving DecidableEq

/-- Modelled from the spec: verifyRedditAccount of
src/server/routes/social-qualify-form.ts (missing from the provided
sources).  Returns the outcome together with the number of outbound fetch
calls performed.  Missing credentials short-circuit to failed with zero
calls; a thrown token call, a non-success token response, an absent access
token, a thrown profile call or a non-success profile response all
collapse to failed; success needs a success profile response that carries
the identity marker. -/
def verifyRedditAccount (clientId clientSecret : Option String)
    (env : ProviderEnv) : VerifyOutcome × Nat :=
  if clientId = none ∨ clientSecret = none then (.failed, 0)
  else
    match env.tokenCall with
    | .thrown => (.failed, 1)
    | .response tok =>
      if tok.ok = false then (.failed, 1)
      else
        match tok.accessToken with
        | none => (.failed, 1)
        | some _ =>
          match env.profileCall with
          | .thrown => (.failed, 2)
          | .response prof =>
            if prof.ok && prof.hasIdentity then (.verified, 2)
            else (.failed, 2)

/-- Modelled from the spec: a persisted applicant record. -/
structure Applicant where
  id : Nat
  email : String
  phone : String
  redditHandle : String
  twitterHandle : Option String
  youtubeHandle : Option String
  facebookHandle : Option String
  identityVerified : Bool
deriving DecidableEq

/-- Modelled from the spec: a persisted contractor-request record. -/
structure ContractorRec where
  userId : Nat
  email : String
  companySlug : String
  companyName : String
  status : String
  joinedCommunityChannel : Bool
  canStartJob : Bool
deriving DecidableEq

/-- Modelled from the spec: the relational store owned by the persistence
gateway. -/
structure Store where
  applicants : List Applicant
  contractors : List ContractorRec
  nextId : Nat
deriving DecidableEq

/-- The empty store, the state before any intake request. -/
def Store.empty : Store := ⟨[], [], 0⟩

/-- Modelled from the spec: applicant existence check by the
(email, phone) pair. -/
def applicantExists (s : Store) (email phone : String) : Bool :=
  s.applicants.any (fun a => a.email == email && a.phone == phone)

/-- Modelled from the spec: applicant lookup by email. -/
def findApplicantByEmail (s : Store) (email : String) : Option Applicant :=
  s.applicants.find? (fun a => a.email == email)

/-- Modelled from the spec: existence check for a contractor request by
applicant id and company slug. -/
def contractorRequestExists (s : Store) (userId : Nat) (slug : String) : Bool :=
  s.contractors.any (fun c => c.userId == userId && c.companySlug == slug)

/-- The JSON response of an intake endpoint, as its status code and the
body fields the three endpoints use; message and userExists are none when
the body omits them. -/
structure ApiResponse where
  status : Nat
  success : Bool
  message : Option String
  userExists : Option Bool
deriving DecidableEq

/-- The user-facing verification-failure message of the qualification
flow. -/
def redditNotFoundMsg (u : String) : String :=
  "Reddit user \x27" ++ u ++ "\x27 does not exist. Please check the username and try again."

/-- The duplicate-applicant message of the qualification flow. -/
def duplicateApplicantMsg : String :=
  "A user with this email and phone number combination already exists."

/-- The duplicate message of the contractor-request flow. -/
def duplicateContractorMsg : String :=
  "You have already requested to join this company. Please check your email for updates."

/-- The missing-applicant message of the contractor-request flow. -/
def userNotFoundMsg : String :=
  "User not found. Please complete the qualification form first."

/-- The confirmation message of the contractor-request flow. -/
def contractorSuccessMsg : String :=
  "We\x27ve just pinged them. You\x27ll be sent an email and text invite within 72 hours."

/-- The malformed-body message shared by the intake endpoints. -/
def invalidJsonMsg : String := "Invalid JSON in request body"

/-- The missing-fields message of the check-existence flow. -/
def missingEmailPhoneMsg : String := "Email and phone are required"

/-- The success message of the qualification flow. -/
def qualifySuccessMsg : String := "Application processed successfully"

/-- Modelled from the spec: the qualification flow after decoding and
validation: verify the claimed handle, reject a duplicate (email, phone)
pair, otherwise insert the applicant with identityVerified true and the
optional handles defaulted to null where absent. -/
def qualifyCore (clientId clientSecret : Option String) (env : ProviderEnv)
    (form : QualifyForm) (s : Store) : ApiResponse × Store :=
  match (verifyRedditAccount clientId clientSecret env).1 with
  | .failed =>
      (⟨400, false, some (redditNotFoundMsg form.redditUsername), none⟩, s)
  | .verified =>
      if applicantExists s form.email form.phone then
        (⟨400, false, some duplicateApplicantMsg, none⟩, s)
      else
        (⟨200, true, some qualifySuccessMsg, none⟩,
         { s with
             applicants := s.applicants ++
               [{ id := s.nextId, email := form.email, phone := form.phone
                , redditHandle := form.redditUsername
                , twitterHandle := form.twitterUsername
                , youtubeHandle := form.youtubeUsername
                , facebookHandle := form.facebookUsername
                , identityVerified := true }]
             nextId := s.nextId + 1 })

/-- Modelled from the spec: handleSocialQualifyForm of
src/server/routes/social-qualify-form.ts (missing from the provided
sources): decode the body, validate it against the qualification schema,
then run the core flow; an absent body fails validation with the first
schema message. -/
def handleSocialQualifyForm (parse : String → Option QualifyBody)
    (decode : List Nat → String) (clientId clientSecret : Option String)
    (env : ProviderEnv) (raw : RawBody QualifyBody) (s : Store) :
    ApiResponse × Store :=
  match parseRequestBody parse decode raw with
  | .err _ => (⟨400, false, some invalidJsonMsg, none⟩, s)
  | .noBody => (⟨400, false, some "Invalid email address", none⟩, s)
  | .ok b =>
      match validateQualify b with
      | .error m => (⟨400, false, some m, none⟩, s)
      | .ok form => qualifyCore clientId clientSecret env form s

/-- Modelled from the spec: the decoded check-existence payload. -/
structure CheckBody where
  email : Option String
  phone : Option String
deriving DecidableEq

/-- Modelled from the spec: handleCheckUserExists of
src/server/routes/social-qualify-form.ts (missing from the provided
sources): decode the body, require truthy email and phone, then report
the existence boolean for the pair. -/
def handleCheckUserExists (parse : String → Option CheckBody)
    (decode : List Nat → String) (raw : RawBody CheckBody) (s : Store) :
    ApiResponse :=
  match parseRequestBody parse decode raw with
  | .err _ => ⟨400, false, some invalidJsonMsg, none⟩
  | .noBody => ⟨400, false, some missingEmailPhoneMsg, none⟩
  | .ok b =>
      match b.email, b.phone with
      | some e, some p =>
          if e = "" ∨ p = "" then ⟨400, false, some missingEmailPhoneMsg, none⟩
          else ⟨200, true, none, some (applicantExists s e p)⟩
      | _, _ => ⟨400, false, some missingEmailPhoneMsg, none⟩

/-- Modelled from the spec: the contractor-request flow after decoding
and validation: look up the applicant by email, answer 404 when absent,
reject a duplicate (applicant, companySlug) pair, otherwise insert the
request with status pending, joinedCommunityChannel true and canStartJob
false. -/
def contractorCore (form : ContractorForm) (s : Store) :
    ApiResponse × Store :=
  match findApplicantByEmail s form.email with
  | none => (⟨404, false, some userNotFoundMsg, none⟩, s)
  | some a =>
      if contractorRequestExists s a.id form.companySlug then
        (⟨400, false, some duplicateContractorMsg, none⟩, s)
      else
        (⟨200, true, some contractorSuccessMsg, none⟩,
         { s with
             contractors := s.contractors ++
               [{ userId := a.id, email := form.email
                , companySlug := form.companySlug
                , companyName := form.companyName
                , status := "pending"
                , joinedCommunityChannel := true
                , canStartJob := false }] })

/-- Modelled from the spec: handleContractorRequest of
src/server/routes/contractor-request.ts (missing from the provided
sources): decode the body, validate it against the contractor schema,
then run the core flow; an absent body fails validation with the first
schema message. -/
def handleContractorRequest (parse : String → Option ContractorBody)
    (decode : List Nat → String) (raw : RawBody ContractorBody)
    (s : Store) : ApiResponse × Store :=
  match parseRequestBody parse decode raw with
  | .err _ => (⟨400, false, some invalidJsonMsg, none⟩, s)
  | .noBody => (⟨400, false, some "Invalid email address", none⟩, s)
  | .ok b =>
      match validateContractor b with
      | .error m => (⟨400, false, some m, none⟩, s)
      | .ok form => contractorCore form s

/-- Modelled from the spec: the database failure modes of the
persistence gateway during one request: healthy, a query that throws
with a message, or an insert that executes but returns no row (the
defensive PersistenceFailed check of spec 4.4). -/
inductive DbBehavior where
  | healthy
  | queryFailure (msg : String)
  | insertNoRow
deriving DecidableEq

/-- The 500 body message of a handler-caught persistence error. -/
def internalErrorMsg (m : String) : String :=
  "Internal server error: " ++ m

/-- The message of a qualification insert that returned no row. -/
def saveUserFailedMsg : String := "Failed to save user to database"

/-- The message of a contractor insert that returned no row. -/
def saveContractorFailedMsg : String :=
  "Failed to save contractor request to database"

/-- Modelled from the spec: the qualification core with the persistence
failure modes of spec 4.5 steps 5 and 6: a thrown query at the existence
check or insert answers 500 with its message, an insert returning no row
answers 500 with the fixed save-failure message; verification still runs
first, so its failure answers 400 whatever the database would do. -/
def qualifyCoreDb (clientId clientSecret : Option String)
    (env : ProviderEnv) (db : DbBehavior) (form : QualifyForm) (s : Store) :
    ApiResponse × Store :=
  match (verifyRedditAccount clientId clientSecret env).1 with
  | .failed =>
      (⟨400, false, some (redditNotFoundMsg form.redditUsername), none⟩, s)
  | .verified =>
      match db with
      | .queryFailure m =>
          (⟨500, false, some (internalErrorMsg m), none⟩, s)
      | .insertNoRow =>
          if applicantExists s form.email form.phone then
            (⟨400, false, some duplicateApplicantMsg, none⟩, s)
          else
            (⟨500, false, some (internalErrorMsg saveUserFailedMsg), none⟩, s)
      | .healthy =>
          if applicantExists s form.email form.phone then
            (⟨400, false, some duplicateApplicantMsg, none⟩, s)
          else
            (⟨200, true, some qualifySuccessMsg, none⟩,
             { s with
                 applicants := s.applicants ++
                   [{ id := s.nextId, email := form.email, phone := form.phone
                    , redditHandle := form.redditUsername
                    , twitterHandle := form.twitterUsername
                    , youtubeHandle := form.youtubeUsername
                    , facebookHandle := form.facebookUsername
                    , identityVerified := true }]
                 nextId := s.nextId + 1 })

/-- Modelled from the spec: the qualification endpoint over a possibly
failing database; the healthy case coincides with
handleSocialQualifyForm. -/
def handleSocialQualifyFormDb (parse : String → Option QualifyBody)
    (decode : List Nat → String) (clientId clientSecret : Option String)
    (env : ProviderEnv) (db : DbBehavior) (raw : RawBody QualifyBody)
    (s : Store) : ApiResponse × Store :=
  match parseRequestBody parse decode raw with
  | .err _ => (⟨400, false, some invalidJsonMsg, none⟩, s)
  | .noBody => (⟨400, false, some "Invalid email address", none⟩, s)
  | .ok b =>
      match validateQualify b with
      | .error m => (⟨400, false, some m, none⟩, s)
      | .ok form => qualifyCoreDb clientId clientSecret env db form s

/-- Modelled from the spec: the check-existence endpoint over a possibly
failing database: the existence query runs after the field check, and a
thrown query answers 500 with its message; no insert occurs, so the
no-row mode behaves like a healthy database. -/
def handleCheckUserExistsDb (parse : String → Option CheckBody)
    (decode : List Nat → String) (db : DbBehavior) (raw : RawBody CheckBody)
    (s : Store) : ApiResponse :=
  match parseRequestBody parse decode raw with
  | .err _ => ⟨400, false, some invalidJsonMsg, none⟩
  | .noBody => ⟨400, false, some missingEmailPhoneMsg, none⟩
  | .ok b =>
      match b.email, b.phone with
      | some e, some p =>
          if e = "" ∨ p = "" then ⟨400, false, some missingEmailPhoneMsg, none⟩
          else
            match db with
            | .queryFailure m => ⟨500, false, some (internalErrorMsg m), none⟩
            | _ => ⟨200, true, none, some (applicantExists s e p)⟩
      | _, _ => ⟨400, false, some missingEmailPhoneMsg, none⟩

/-- Modelled from the spec: the contractor core with the persistence
failure modes of spec 4.5 contractor step 5: the applicant lookup is the
first query, so a thrown query answers 500 before the 404 decision, and
an insert returning no row answers 500 with the fixed save-failure
message after the lookup and duplicate check succeeded. -/
def contractorCoreDb (db : DbBehavior) (form : ContractorForm) (s : Store) :
    ApiResponse × Store :=
  match db with
  | .queryFailure m =>
      (⟨500, false, some (internalErrorMsg m), none⟩, s)
  | .insertNoRow =>
      match findApplicantByEmail s form.email with
      | none => (⟨404, false, some userNotFoundMsg, none⟩, s)
      | some a =>
          if contractorRequestExists s a.id form.companySlug then
            (⟨400, false, some duplicateContractorMsg, none⟩, s)
          else
            (⟨500, false, some (internalErrorMsg saveContractorFailedMsg), none⟩, s)
  | .healthy => contractorCore form s

/-- Modelled from the spec: the contractor endpoint over a possibly
failing database; the healthy case coincides with
handleContractorRequest. -/
def handleContractorRequestDb (parse : String → Option ContractorBody)
    (decode : List Nat → String) (db : DbBehavior)
    (raw : RawBody ContractorBody) (s : Store) : ApiResponse × Store :=
  match parseRequestBody parse decode raw with
  | .err _ => (⟨400, false, some invalidJsonMsg, none⟩, s)
  | .noBody => (⟨400, false, some "Invalid email address", none⟩, s)
  | .ok b =>
      match validateContractor b with
      | .error m => (⟨400, false, some m, none⟩, s)
      | .ok form => contractorCoreDb db form s

/-- Modelled from the spec: one request handled by the intake
orchestrator, viewed as a transition on the store; the check-existence
flow reads the store without changing it, so only the two writing flows
appear. -/
inductive Step : Store → Store → Prop
  | qualify (parse : String → Option QualifyBody)
      (decode : List Nat → String) (clientId clientSecret : Option String)
      (env : ProviderEnv) (raw : RawBody QualifyBody) (s : Store) :
      Step s (handleSocialQualifyForm parse decode clientId clientSecret env raw s).2
  | contractor (parse : String → Option ContractorBody)
      (decode : List Nat → String) (raw : RawBody ContractorBody)
      (s : Store) :
      Step s (handleContractorRequest parse decode raw s).2

/-- A store state reachable from the empty store by intake requests. -/
def Reachable (s : Store) : Prop :=
  Relation.ReflTransGen Step Store.empty s

/-- The uniqueness invariant of contractor requests: no two stored
records share the (applicant, companySlug) pair. -/
def ContractorUnique (s : Store) : Prop :=
  s.contractors.Pairwise
    (fun c d => ¬(c.userId = d.userId ∧ c.companySlug = d.companySlug))

/-- A JSON.parse stand-in that accepts no string, for concrete runs whose
body arrives as an already-parsed object. -/
def noQualifyParse : String → Option QualifyBody := fun _ => none

/-- A JSON.parse stand-in for the check-existence endpoint. -/
def noCheckParse : String → Option CheckBody := fun _ => none

/-- A JSON.parse stand-in for the contractor endpoint. -/
def noContractorParse : String → Option ContractorBody := fun _ => none

/-- A UTF-8 decoder stand-in for concrete runs without buffer bodies. -/
def noDecode : List Nat → String := fun _ => ""

/-- A provider behaviour in which every outbound call throws. -/
def provFail : ProviderEnv := ⟨.thrown, .thrown⟩

/-- A provider behaviour that grants a token and confirms the handle. -/
def provVerified : ProviderEnv :=
  ⟨.response ⟨true, some "token"⟩, .response ⟨true, true⟩⟩

/-- A concrete qualification body with only the required fields. -/
def sampleQualifyBody : QualifyBody :=
  ⟨some "applicant@example.com", some "+12345678901", some "validuser",
   none, none, none⟩

/-- The applicant row the sample qualification body persists. -/
def sampleApplicant : Applicant :=
  ⟨0, "applicant@example.com", "+12345678901", "validuser",
   none, none, none, true⟩

/-- A store already holding the sample applicant. -/
def storeWithApplicant : Store := ⟨[sampleApplicant], [], 1⟩

/-- A concrete contractor-request body addressed to the sample
applicant. -/
def sampleContractorBody : ContractorBody :=
  ⟨some "applicant@example.com", some "silicon-valley-consulting",
   some "Silicon Valley Consulting"⟩

/-- Reduction of the qualification endpoint once the body decoded and
validated. -/
theorem handleQualify_reduces (parse : String → Option QualifyBody)
    (decode : List Nat → String) (clientId clientSecret : Option String)
    (env : ProviderEnv) (raw : RawBody QualifyBody) (b : QualifyBody)
    (form : QualifyForm) (s : Store)
    (hp : parseRequestBody parse decode raw = .ok b)
    (hv : validateQualify b = .ok form) :
    handleSocialQualifyForm parse decode clientId clientSecret env raw s =
      qualifyCore clientId clientSecret env form s := by
  unfold handleSocialQualifyForm
  simp only [hp, hv]

/-- A failed verification makes the qualification core answer 400 with
the fixed verification-failure body and leave the store unchanged. -/
theorem qualifyCore_of_failed (clientId clientSecret : Option String)
    (env : ProviderEnv) (form : QualifyForm) (s : Store)
    (hfail : (verifyRedditAccount clientId clientSecret env).1 = .failed) :
    qualifyCore clientId clientSecret env form s =
      (⟨400, false, some (redditNotFoundMsg form.redditUsername), none⟩, s) := by
  unfold qualifyCore
  rw [hfail]

/-- A verified handle with a duplicate (email, phone) pair makes the
qualification core answer 400 with the duplicate body and leave the store
unchanged. -/
theorem qualifyCore_of_duplicate (clientId clientSecret : Option String)
    (env : ProviderEnv) (form : QualifyForm) (s : Store)
    (hver : (verifyRedditAccount clientId clientSecret env).1 = .verified)
    (hdup : applicantExists s form.email form.phone = true) :
    qualifyCore clientId clientSecret env form s =
      (⟨400, false, some duplicateApplicantMsg, none⟩, s) := by
  unfold qualifyCore
  rw [hver]
  simp [hdup]

/-- A verified handle with a fresh (email, phone) pair makes the
qualification core answer 200 and append the applicant row. -/
theorem qualifyCore_of_fresh (clientId clientSecret : Option String)
    (env : ProviderEnv) (form : QualifyForm) (s : Store)
    (hver : (verifyRedditAccount clientId clientSecret env).1 = .verified)
    (hfresh : applicantExists s form.email form.phone = false) :
    qualifyCore clientId clientSecret env form s =
      (⟨200, true, some qualifySuccessMsg, none⟩,
       { s with
           applicants := s.applicants ++
             [{ id := s.nextId, email := form.email, phone := form.phone
              , redditHandle := form.redditUsername
              , twitterHandle := form.twitterUsername
              , youtubeHandle := form.youtubeUsername
              , facebookHandle := form.facebookUsername
              , identityVerified := true }]
           nextId := s.nextId + 1 }) := by
  unfold qualifyCore
  rw [hver]
  simp [hfresh]

end Intake

namespace Intake

/-- C4: if either provider credential is unconfigured, the verifier
short-circuits to a failed result with zero outbound fetch calls, so
neither the token endpoint nor the profile endpoint is contacted. -/
theorem c4_missing_credentials_no_fetch
    (clientId clientSecret : Option String) (env : ProviderEnv)
    (h : clientId = none ∨ clientSecret = none) :
    verifyRedditAccount clientId clientSecret env = (.failed, 0) := by
  unfold verifyRedditAccount
  rw [if_pos h]

/-- Witness for C4 at a concrete unconfigured client identifier. -/
theorem c4_witness :
    ((none : Option String) = none ∨ (some "secret" : Option String) = none) ∧
    verifyRedditAccount none (some "secret") provFail = (.failed, 0) :=
  ⟨Or.inl rfl,
   c4_missing_credentials_no_fetch none (some "secret") provFail (Or.inl rfl)⟩

/-- C5: the body decoder maps null and undefined to no body, returns an
already-parsed object unchanged, decodes and parses a byte buffer and
fails with the buffer message exactly when parsing fails, parses a string
and fails with the string message exactly when parsing fails, and maps
every other input shape to no body rather than an error. -/
theorem c5_parseRequestBody_contract (α : Type)
    (parse : String → Option α) (decode : List Nat → String) :
    parseRequestBody parse decode (.jsNull : RawBody α) = .noBody ∧
    parseRequestBody parse decode (.jsUndefined : RawBody α) = .noBody ∧
    (∀ o : α, parseRequestBody parse decode (.obj o) = .ok o) ∧
    (∀ bytes : List Nat,
      (parseRequestBody parse decode (.buffer bytes) =
          .err "Invalid JSON body (buffer)" ↔ parse (decode bytes) = none) ∧
      (∀ v : α, parseRequestBody parse decode (.buffer bytes) = .ok v ↔
          parse (decode bytes) = some v)) ∧
    (∀ t : String,
      (parseRequestBody parse decode (.str t) =
          .err "Invalid JSON body (string)" ↔ parse t = none) ∧
      (∀ v : α, parseRequestBody parse decode (.str t) = .ok v ↔
          parse t = some v)) ∧
    parseRequestBody parse decode (.otherPrim : RawBody α) = .noBody := by
  refine ⟨rfl, rfl, fun o => rfl, fun bytes => ?_, fun t => ?_, rfl⟩
  · cases h : parse (decode bytes) <;> simp [parseRequestBody, h]
  · cases h : parse t <;> simp [parseRequestBody, h]

/-- Witness for C5 at a concrete parse function and inputs. -/
theorem c5_witness :
    parseRequestBody noCheckParse noDecode (.buffer [1, 2]) =
      .err "Invalid JSON body (buffer)" ∧
    parseRequestBody noCheckParse noDecode
      (.obj (⟨some "a@b.com", some "+1"⟩ : CheckBody)) =
      .ok ⟨some "a@b.com", some "+1"⟩ :=
  ⟨((c5_parseRequestBody_contract CheckBody noCheckParse noDecode).2.2.2.1
      [1, 2]).1.mpr rfl,
   (c5_parseRequestBody_contract CheckBody noCheckParse noDecode).2.2.1
      ⟨some "a@b.com", some "+1"⟩⟩

/-- C9: the outermost error boundary answers 500, the body message is
the Server error prefix followed by the exception message, and the error
field holds the stack trace exactly when the environment is development,
being absent otherwise. -/
theorem c9_error_boundary_shape (msg stack : String) (env : Option String) :
    (globalErrorHandler msg stack env).1 = 500 ∧
    (globalErrorHandler msg stack env).2.success = false ∧
    (globalErrorHandler msg stack env).2.message = "Server error: " ++ msg ∧
    ((globalErrorHandler msg stack env).2.error = some stack ↔
      env = some "development") ∧
    ((globalErrorHandler msg stack env).2.error = none ↔
      ¬env = some "development") := by
  by_cases h : env = some "development" <;>
    simp [globalErrorHandler, formatErrorResponse, h]

/-- Witness for C9 in a development and a production environment. -/
theorem c9_witness :
    (globalErrorHandler "boom" "trace" (some "development")).2.error =
      some "trace" ∧
    (globalErrorHandler "boom" "trace" (some "production")).2.error = none :=
  ⟨(c9_error_boundary_shape "boom" "trace" (some "development")).2.2.2.1.mpr rfl,
   (c9_error_boundary_shape "boom" "trace" (some "production")).2.2.2.2.mpr
     (by decide)⟩

/-- C1: whenever identity verification fails, the qualification endpoint
answers 400 with the one fixed body built only from the claimed handle,
so the caller cannot tell the failure causes apart; and every listed
cause, namely unconfigured credentials, a thrown token call, a
non-success token response, an absent access token, a thrown profile
call, or a non-success profile response, does make verification fail. -/
theorem c1_verification_failure_collapses :
    (∀ (parse : String → Option QualifyBody) (decode : List Nat → String)
       (clientId clientSecret : Option String) (env : ProviderEnv)
       (raw : RawBody QualifyBody) (b : QualifyBody) (form : QualifyForm)
       (s : Store),
       parseRequestBody parse decode raw = .ok b →
       validateQualify b = .ok form →
       (verifyRedditAccount clientId clientSecret env).1 = .failed →
       (handleSocialQualifyForm parse decode clientId clientSecret env raw s).1 =
         ⟨400, false, some (redditNotFoundMsg form.redditUsername), none⟩) ∧
    (∀ (clientId clientSecret : Option String) (env : ProviderEnv),
       clientId = none ∨ clientSecret = none →
       (verifyRedditAccount clientId clientSecret env).1 = .failed) ∧
    (∀ (clientId clientSecret : Option String) (env : ProviderEnv),
       env.tokenCall = .thrown →
       (verifyRedditAccount clientId clientSecret env).1 = .failed) ∧
    (∀ (clientId clientSecret : Option String) (env : ProviderEnv)
       (tok : TokenResponse),
       env.tokenCall = .response tok →
       tok.ok = false ∨ tok.accessToken = none →
       (verifyRedditAccount clientId clientSecret env).1 = .failed) ∧
    (∀ (clientId clientSecret : Option String) (env : ProviderEnv),
       env.profileCall = .thrown →
       (verifyRedditAccount clientId clientSecret env).1 = .failed) ∧
    (∀ (clientId clientSecret : Option String) (env : ProviderEnv)
       (prof : ProfileResponse),
       env.profileCall = .response prof → prof.ok = false →
       (verifyRedditAccount clientId clientSecret env).1 = .failed) := by
  refine ⟨?_, ?_, ?_, ?_, ?_, ?_⟩
  · intro parse decode clientId clientSecret env raw b form s hp hv hfail
    rw [handleQualify_reduces parse decode clientId clientSecret env raw b form s hp hv,
        qualifyCore_of_failed clientId clientSecret env form s hfail]
  · intro clientId clientSecret env h
    simp [verifyRedditAccount, if_pos h]
  · intro clientId clientSecret env h
    by_cases hc : clientId = none ∨ clientSecret = none <;>
      simp [verifyRedditAccount, hc, h]
  · intro clientId clientSecret env tok htok hbad
    by_cases hc : clientId = none ∨ clientSecret = none
    · simp [verifyRedditAccount, hc]
    · rcases hbad with hok | hat
      · simp [verifyRedditAccount, hc, htok, hok]
      · cases hok : tok.ok <;>
          simp [verifyRedditAccount, hc, htok, hok, hat]
  · intro clientId clientSecret env h
    by_cases hc : clientId = none ∨ clientSecret = none
    · simp [verifyRedditAccount, hc]
    · cases htok : env.tokenCall with
      | thrown => simp [verifyRedditAccount, hc, htok]
      | response tok =>
        cases hok : tok.ok <;> cases hat : tok.accessToken <;>
          simp [verifyRedditAccount, hc, htok, hok, hat, h]
  · intro clientId clientSecret env prof hpr hprok
    by_cases hc : clientId = none ∨ clientSecret = none
    · simp [verifyRedditAccount, hc]
    · cases htok : env.tokenCall with
      | thrown => simp [verifyRedditAccount, hc, htok]
      | response tok =>
        cases hok : tok.ok <;> cases hat : tok.accessToken <;>
          simp [verifyRedditAccount, hc, htok, hok, hat, hpr, hprok]

/-- Witness for C1 on a concrete request with unconfigured credentials. -/
theorem c1_witness :
    parseRequestBody noQualifyParse noDecode (.obj sampleQualifyBody) =
      .ok sampleQualifyBody ∧
    validateQualify sampleQualifyBody =
      .ok ⟨"applicant@example.com", "+12345678901", "validuser",
           none, none, none⟩ ∧
    (verifyRedditAccount none none provFail).1 = .failed ∧
    (handleSocialQualifyForm noQualifyParse noDecode none none provFail
        (.obj sampleQualifyBody) Store.empty).1 =
      ⟨400, false, some (redditNotFoundMsg "validuser"), none⟩ :=
  ⟨rfl, rfl, by decide,
   c1_verification_failure_collapses.1 noQualifyParse noDecode none none
     provFail (.obj sampleQualifyBody) sampleQualifyBody
     ⟨"applicant@example.com", "+12345678901", "validuser", none, none, none⟩
     Store.empty rfl rfl (by decide)⟩

/-- C2 counterexample: the sample payload reuses the stored
(email, phone) pair, yet with unconfigured provider credentials the
endpoint answers 400 with the verification-failure message, not the
duplicate message, because verification runs before the duplicate
check. -/
theorem c2_counterexample :
    applicantExists storeWithApplicant "applicant@example.com" "+12345678901" =
      true ∧
    (handleSocialQualifyForm noQualifyParse noDecode none none provFail
        (.obj sampleQualifyBody) storeWithApplicant).1.status = 400 ∧
    ¬(handleSocialQualifyForm noQualifyParse noDecode none none provFail
        (.obj sampleQualifyBody) storeWithApplicant).1.message =
      some duplicateApplicantMsg := ⟨by decide, by decide, by decide⟩

/-- C2 amended: for every qualification payload whose verification
succeeds and whose (email, phone) pair already exists, the endpoint
answers 400 with exactly the duplicate message, regardless of the other
fields, and the store is unchanged, so no applicant row is inserted. -/
theorem c2_duplicate_pair_rejected (parse : String → Option QualifyBody)
    (decode : List Nat → String) (clientId clientSecret : Option String)
    (env : ProviderEnv) (raw : RawBody QualifyBody) (b : QualifyBody)
    (form : QualifyForm) (s : Store)
    (hp : parseRequestBody parse decode raw = .ok b)
    (hv : validateQualify b = .ok form)
    (hver : (verifyRedditAccount clientId clientSecret env).1 = .verified)
    (hdup : applicantExists s form.email form.phone = true) :
    handleSocialQualifyForm parse decode clientId clientSecret env raw s =
      (⟨400, false, some duplicateApplicantMsg, none⟩, s) := by
  rw [handleQualify_reduces parse decode clientId clientSecret env raw b form s hp hv,
      qualifyCore_of_duplicate clientId clientSecret env form s hver hdup]

/-- Witness for the amended C2 on a concrete duplicate submission. -/
theorem c2_witness :
    (verifyRedditAccount (some "id") (some "secret") provVerified).1 =
      .verified ∧
    applicantExists storeWithApplicant "applicant@example.com" "+12345678901" =
      true ∧
    handleSocialQualifyForm noQualifyParse noDecode (some "id") (some "secret")
        provVerified (.obj sampleQualifyBody) storeWithApplicant =
      (⟨400, false, some duplicateApplicantMsg, none⟩, storeWithApplicant) :=
  ⟨by decide, by decide,
   c2_duplicate_pair_rejected noQualifyParse noDecode (some "id")
     (some "secret") provVerified (.obj sampleQualifyBody) sampleQualifyBody
     ⟨"applicant@example.com", "+12345678901", "validuser", none, none, none⟩
     storeWithApplicant rfl rfl (by decide) (by decide)⟩

/-- C6: a valid qualification payload carrying only the required fields,
under successful verification and a fresh (email, phone) pair, gets a
200 response and the persisted applicant stores the three optional
handles as null and the verified flag as true. -/
theorem c6_minimal_payload_nulls (parse : String → Option QualifyBody)
    (decode : List Nat → String) (clientId clientSecret : Option String)
    (env : ProviderEnv) (e p r : String) (s : Store)
    (he : emailShape e = true) (hpn : ¬p = "") (hrn : ¬r = "")
    (hver : (verifyRedditAccount clientId clientSecret env).1 = .verified)
    (hfresh : applicantExists s e p = false) :
    handleSocialQualifyForm parse decode clientId clientSecret env
        (.obj ⟨some e, some p, some r, none, none, none⟩) s =
      (⟨200, true, some qualifySuccessMsg, none⟩,
       { s with
           applicants := s.applicants ++
             [⟨s.nextId, e, p, r, none, none, none, true⟩]
           nextId := s.nextId + 1 }) := by
  have hval : validateQualify ⟨some e, some p, some r, none, none, none⟩ =
      .ok ⟨e, p, r, none, none, none⟩ := by
    unfold validateQualify
    simp [he, hpn, hrn]
  rw [handleQualify_reduces parse decode clientId clientSecret env
        (.obj ⟨some e, some p, some r, none, none, none⟩)
        ⟨some e, some p, some r, none, none, none⟩
        ⟨e, p, r, none, none, none⟩ s rfl hval,
      qualifyCore_of_fresh clientId clientSecret env
        ⟨e, p, r, none, none, none⟩ s hver hfresh]

/-- Witness for C6 on a concrete minimal payload. -/
theorem c6_witness :
    emailShape "no-handles@example.com" = true ∧
    (verifyRedditAccount (some "id") (some "secret") provVerified).1 =
      .verified ∧
    applicantExists Store.empty "no-handles@example.com" "+15555555555" =
      false ∧
    handleSocialQualifyForm noQualifyParse noDecode (some "id")
        (some "secret") provVerified
        (.obj ⟨some "no-handles@example.com", some "+15555555555",
               some "validuser", none, none, none⟩) Store.empty =
      (⟨200, true, some qualifySuccessMsg, none⟩,
       ⟨[⟨0, "no-handles@example.com", "+15555555555", "validuser",
          none, none, none, true⟩], [], 1⟩) :=
  ⟨by decide, by decide, by decide,
   c6_minimal_payload_nulls noQualifyParse noDecode (some "id")
     (some "secret") provVerified "no-handles@example.com" "+15555555555"
     "validuser" Store.empty (by decide) (by decide) (by decide)
     (by decide) (by decide)⟩

/-- A payload accepted by the qualification schema has a non-empty email
and a non-empty phone. -/
theorem validateQualify_ok_fields (b : QualifyBody) (form : QualifyForm)
    (hv : validateQualify b = .ok form) :
    ¬form.email = "" ∧ ¬form.phone = "" := by
  unfold validateQualify at hv
  cases hbe : b.email with
  | none => simp only [hbe] at hv; exact Except.noConfusion hv
  | some e =>
    simp only [hbe] at hv
    by_cases hesh : emailShape e = false
    · rw [if_pos hesh] at hv; exact Except.noConfusion hv
    · rw [if_neg hesh] at hv
      cases hbp : b.phone with
      | none => simp only [hbp] at hv; exact Except.noConfusion hv
      | some p =>
        simp only [hbp] at hv
        by_cases hpe : p = ""
        · rw [if_pos hpe] at hv; exact Except.noConfusion hv
        · rw [if_neg hpe] at hv
          cases hbr : b.redditUsername with
          | none => simp only [hbr] at hv; exact Except.noConfusion hv
          | some r =>
            simp only [hbr] at hv
            by_cases hre : r = ""
            · rw [if_pos hre] at hv; exact Except.noConfusion hv
            · rw [if_neg hre] at hv
              injection hv with hform
              subst hform
              refine ⟨fun h0 => ?_, hpe⟩
              have he0 : e = "" := h0
              rw [he0] at hesh
              exact hesh rfl

/-- C7: a valid qualification payload with successful verification and a
fresh (email, phone) pair gets a 200 response; the existence check for
that pair answers userExists false before the submission and userExists
true on the store the submission produces. -/
theorem c7_qualify_then_exists (parse : String → Option QualifyBody)
    (decode : List Nat → String) (parseC : String → Option CheckBody)
    (decodeC : List Nat → String) (clientId clientSecret : Option String)
    (env : ProviderEnv) (raw : RawBody QualifyBody) (b : QualifyBody)
    (form : QualifyForm) (s : Store)
    (hp : parseRequestBody parse decode raw = .ok b)
    (hv : validateQualify b = .ok form)
    (hver : (verifyRedditAccount clientId clientSecret env).1 = .verified)
    (hfresh : applicantExists s form.email form.phone = false) :
    handleCheckUserExists parseC decodeC
        (.obj ⟨some form.email, some form.phone⟩) s =
      ⟨200, true, none, some false⟩ ∧
    (handleSocialQualifyForm parse decode clientId clientSecret env raw s).1 =
      ⟨200, true, some qualifySuccessMsg, none⟩ ∧
    handleCheckUserExists parseC decodeC
        (.obj ⟨some form.email, some form.phone⟩)
        (handleSocialQualifyForm parse decode clientId clientSecret env raw s).2 =
      ⟨200, true, none, some true⟩ := by
  obtain ⟨hee, hpe⟩ := validateQualify_ok_fields b form hv
  have hcond : ¬(form.email = "" ∨ form.phone = "") := by
    rintro (h | h)
    · exact hee h
    · exact hpe h
  have hred := handleQualify_reduces parse decode clientId clientSecret env
    raw b form s hp hv
  have hcore := qualifyCore_of_fresh clientId clientSecret env form s hver hfresh
  refine ⟨?_, ?_, ?_⟩
  · unfold handleCheckUserExists
    simp [parseRequestBody, hcond, hfresh]
  · rw [hred, hcore]
  · rw [hred, hcore]
    unfold handleCheckUserExists
    simp [parseRequestBody, hcond, applicantExists, List.any_append]

/-- Witness for C7 on a concrete fresh submission over the empty store. -/
theorem c7_witness :
    (verifyRedditAccount (some "id") (some "secret") provVerified).1 =
      .verified ∧
    applicantExists Store.empty "applicant@example.com" "+12345678901" =
      false ∧
    handleCheckUserExists noCheckParse noDecode
        (.obj ⟨some "applicant@example.com", some "+12345678901"⟩)
        Store.empty = ⟨200, true, none, some false⟩ ∧
    handleCheckUserExists noCheckParse noDecode
        (.obj ⟨some "applicant@example.com", some "+12345678901"⟩)
        (handleSocialQualifyForm noQualifyParse noDecode (some "id")
          (some "secret") provVerified (.obj sampleQualifyBody)
          Store.empty).2 = ⟨200, true, none, some true⟩ := by
  have h := c7_qualify_then_exists noQualifyParse noDecode noCheckParse
    noDecode (some "id") (some "secret") provVerified
    (.obj sampleQualifyBody) sampleQualifyBody
    ⟨"applicant@example.com", "+12345678901", "validuser", none, none, none⟩
    Store.empty rfl rfl (by decide) (by decide)
  exact ⟨by decide, by decide, h.1, h.2.2⟩

/-- Reduction of the contractor endpoint once the body decoded and
validated. -/
theorem handleContractor_reduces (parse : String → Option ContractorBody)
    (decode : List Nat → String) (raw : RawBody ContractorBody)
    (b : ContractorBody) (form : ContractorForm) (s : Store)
    (hp : parseRequestBody parse decode raw = .ok b)
    (hv : validateContractor b = .ok form) :
    handleContractorRequest parse decode raw s = contractorCore form s := by
  unfold handleContractorRequest
  simp only [hp, hv]

/-- C8: a schema-valid contractor request whose email matches no stored
applicant is answered 404 with the fixed message and leaves the store
unchanged, whatever the company slug looks like. -/
theorem c8_missing_applicant_404 (parse : String → Option ContractorBody)
    (decode : List Nat → String) (raw : RawBody ContractorBody)
    (b : ContractorBody) (form : ContractorForm) (s : Store)
    (hp : parseRequestBody parse decode raw = .ok b)
    (hv : validateContractor b = .ok form)
    (habs : findApplicantByEmail s form.email = none) :
    handleContractorRequest parse decode raw s =
      (⟨404, false, some userNotFoundMsg, none⟩, s) := by
  rw [handleContractor_reduces parse decode raw b form s hp hv]
  unfold contractorCore
  simp only [habs]

/-- A contractor body with an odd-looking but schema-valid company
slug. -/
def weirdContractorBody : ContractorBody :=
  ⟨some "ghost@example.com", some "??##//!!", some "Ghost Co"⟩

/-- Witness for C8 on the empty store with a malformed-looking slug. -/
theorem c8_witness :
    validateContractor weirdContractorBody =
      .ok ⟨"ghost@example.com", "??##//!!", "Ghost Co"⟩ ∧
    findApplicantByEmail Store.empty "ghost@example.com" = none ∧
    handleContractorRequest noContractorParse noDecode
        (.obj weirdContractorBody) Store.empty =
      (⟨404, false, some userNotFoundMsg, none⟩, Store.empty) :=
  ⟨rfl, rfl,
   c8_missing_applicant_404 noContractorParse noDecode
     (.obj weirdContractorBody) weirdContractorBody
     ⟨"ghost@example.com", "??##//!!", "Ghost Co"⟩ Store.empty rfl rfl rfl⟩

/-- The qualification core never touches the contractor table. -/
theorem qualifyCore_contractors (clientId clientSecret : Option String)
    (env : ProviderEnv) (form : QualifyForm) (s : Store) :
    (qualifyCore clientId clientSecret env form s).2.contractors =
      s.contractors := by
  unfold qualifyCore
  split
  · rfl
  · split <;> rfl

/-- The qualification endpoint never touches the contractor table. -/
theorem handleQualify_contractors (parse : String → Option QualifyBody)
    (decode : List Nat → String) (clientId clientSecret : Option String)
    (env : ProviderEnv) (raw : RawBody QualifyBody) (s : Store) :
    (handleSocialQualifyForm parse decode clientId clientSecret env raw s).2.contractors =
      s.contractors := by
  unfold handleSocialQualifyForm
  split
  · rfl
  · rfl
  · split
    · rfl
    · apply qualifyCore_contractors

/-- The contractor core preserves the uniqueness invariant: it inserts
only after the duplicate check for the (applicant, companySlug) pair
came back empty. -/
theorem contractorCore_unique (form : ContractorForm) (s : Store)
    (h : ContractorUnique s) : ContractorUnique (contractorCore form s).2 := by
  unfold contractorCore
  split
  · exact h
  · split
    · exact h
    · rename_i a hfind hnotex
      unfold ContractorUnique
      simp only []
      rw [List.pairwise_append]
      refine ⟨h, List.pairwise_singleton _ _, ?_⟩
      simp only [contractorRequestExists, List.any_eq_true, Bool.and_eq_true,
        beq_iff_eq, not_exists, not_and] at hnotex
      intro d hd e he
      rw [List.mem_singleton] at he
      subst he
      rintro ⟨h1, h2⟩
      exact hnotex d hd h1 h2

/-- The contractor endpoint preserves the uniqueness invariant. -/
theorem handleContractor_unique (parse : String → Option ContractorBody)
    (decode : List Nat → String) (raw : RawBody ContractorBody) (s : Store)
    (h : ContractorUnique s) :
    ContractorUnique (handleContractorRequest parse decode raw s).2 := by
  unfold handleContractorRequest
  split
  · exact h
  · exact h
  · split
    · exact h
    · exact contractorCore_unique _ _ h

/-- Applicant lookup ignores the contractor table. -/
theorem findApplicantByEmail_contractors (s : Store)
    (l : List ContractorRec) (e : String) :
    findApplicantByEmail { s with contractors := l } e =
      findApplicantByEmail s e := rfl

/-- When the contractor core accepts a request, running the identical
request again on the produced store is rejected with the duplicate
message. -/
theorem contractorCore_twice (form : ContractorForm) (s : Store)
    (h200 : (contractorCore form s).1.status = 200) :
    (contractorCore form (contractorCore form s).2).1 =
      ⟨400, false, some duplicateContractorMsg, none⟩ := by
  cases hfind : findApplicantByEmail s form.email with
  | none =>
      exfalso
      unfold contractorCore at h200
      rw [hfind] at h200
      simp at h200
  | some a =>
      cases hex : contractorRequestExists s a.id form.companySlug with
      | true =>
          exfalso
          unfold contractorCore at h200
          rw [hfind] at h200
          simp [hex] at h200
      | false =>
          have hs2 : (contractorCore form s).2 =
              { s with
                  contractors := s.contractors ++
                    [⟨a.id, form.email, form.companySlug, form.companyName,
                      "pending", true, false⟩] } := by
            unfold contractorCore
            rw [hfind]
            simp [hex]
          rw [hs2]
          unfold contractorCore
          rw [findApplicantByEmail_contractors, hfind]
          simp [contractorRequestExists, List.any_append]

/-- C3: a contractor submission accepted with 200 is, when repeated
unchanged on the store it produced, rejected with 400 and the duplicate
message, so the same request is never accepted twice; and every store
reachable from the empty store holds at most one contractor request per
(applicant, companySlug) pair. -/
theorem c3_no_double_accept :
    (∀ (parse : String → Option ContractorBody)
       (decode : List Nat → String) (raw : RawBody ContractorBody)
       (s : Store),
       (handleContractorRequest parse decode raw s).1.status = 200 →
       (handleContractorRequest parse decode raw
           (handleContractorRequest parse decode raw s).2).1 =
         ⟨400, false, some duplicateContractorMsg, none⟩) ∧
    (∀ s : Store, Reachable s → ContractorUnique s) := by
  constructor
  · intro parse decode raw s h200
    cases hp : parseRequestBody parse decode raw with
    | err m =>
        exfalso
        unfold handleContractorRequest at h200
        simp only [hp] at h200
        simp at h200
    | noBody =>
        exfalso
        unfold handleContractorRequest at h200
        simp only [hp] at h200
        simp at h200
    | ok b =>
        cases hv : validateContractor b with
        | error m =>
            exfalso
            unfold handleContractorRequest at h200
            simp only [hp, hv] at h200
            simp at h200
        | ok form =>
            rw [handleContractor_reduces parse decode raw b form
                  ((handleContractorRequest parse decode raw s).2) hp hv,
                handleContractor_reduces parse decode raw b form s hp hv]
            rw [handleContractor_reduces parse decode raw b form s hp hv] at h200
            exact contractorCore_twice form s h200
  · intro s h
    unfold Reachable at h
    induction h with
    | refl => exact List.Pairwise.nil
    | tail _ hstep ih =>
      cases hstep with
      | qualify parse decode clientId clientSecret env raw =>
          unfold ContractorUnique
          rw [handleQualify_contractors]
          exact ih
      | contractor parse decode raw =>
          exact handleContractor_unique _ _ _ _ ih

/-- Witness for C3: a concrete accepted submission, its duplicate
rejection, and the invariant at the initial state. -/
theorem c3_witness :
    (handleContractorRequest noContractorParse noDecode
        (.obj sampleContractorBody) storeWithApplicant).1.status = 200 ∧
    (handleContractorRequest noContractorParse noDecode
        (.obj sampleContractorBody)
        (handleContractorRequest noContractorParse noDecode
          (.obj sampleContractorBody) storeWithApplicant).2).1 =
      ⟨400, false, some duplicateContractorMsg, none⟩ ∧
    ContractorUnique Store.empty :=
  ⟨by decide,
   c3_no_double_accept.1 noContractorParse noDecode
     (.obj sampleContractorBody) storeWithApplicant (by decide),
   c3_no_double_accept.2 Store.empty Relation.ReflTransGen.refl⟩

/-- Over a healthy database the db-aware qualification endpoint is the
plain one, so the db-aware model extends the approved handler. -/
theorem handleSocialQualifyFormDb_healthy
    (parse : String → Option QualifyBody) (decode : List Nat → String)
    (clientId clientSecret : Option String) (env : ProviderEnv)
    (raw : RawBody QualifyBody) (s : Store) :
    handleSocialQualifyFormDb parse decode clientId clientSecret env
        .healthy raw s =
      handleSocialQualifyForm parse decode clientId clientSecret env raw s := rfl

/-- Over a healthy database the db-aware existence check is the plain
one. -/
theorem handleCheckUserExistsDb_healthy
    (parse : String → Option CheckBody) (decode : List Nat → String)
    (raw : RawBody CheckBody) (s : Store) :
    handleCheckUserExistsDb parse decode .healthy raw s =
      handleCheckUserExists parse decode raw s := rfl

/-- Over a healthy database the db-aware contractor endpoint is the
plain one. -/
theorem handleContractorRequestDb_healthy
    (parse : String → Option ContractorBody) (decode : List Nat → String)
    (raw : RawBody ContractorBody) (s : Store) :
    handleContractorRequestDb parse decode .healthy raw s =
      handleContractorRequest parse decode raw s := rfl

/-- C10: for each of the three intake endpoints, over every database
behaviour including a thrown query and an insert returning no row, the
response body carries success true exactly when the status is 200 — so
every 400, 404 and handler-produced 500 carries success false — and the
outermost error boundary always answers 500 with success false. -/
theorem c10_success_iff_status200 :
    (∀ (parse : String → Option QualifyBody) (decode : List Nat → String)
       (clientId clientSecret : Option String) (env : ProviderEnv)
       (db : DbBehavior) (raw : RawBody QualifyBody) (s : Store),
       ((handleSocialQualifyFormDb parse decode clientId clientSecret env db raw s).1.status =
          200 ↔
        (handleSocialQualifyFormDb parse decode clientId clientSecret env db raw s).1.success =
          true)) ∧
    (∀ (parse : String → Option CheckBody) (decode : List Nat → String)
       (db : DbBehavior) (raw : RawBody CheckBody) (s : Store),
       ((handleCheckUserExistsDb parse decode db raw s).status = 200 ↔
        (handleCheckUserExistsDb parse decode db raw s).success = true)) ∧
    (∀ (parse : String → Option ContractorBody) (decode : List Nat → String)
       (db : DbBehavior) (raw : RawBody ContractorBody) (s : Store),
       ((handleContractorRequestDb parse decode db raw s).1.status = 200 ↔
        (handleContractorRequestDb parse decode db raw s).1.success = true)) ∧
    (∀ (msg stack : String) (env : Option String),
       (globalErrorHandler msg stack env).1 = 500 ∧
       (globalErrorHandler msg stack env).2.success = false) := by
  refine ⟨?_, ?_, ?_, ?_⟩
  · intro parse decode clientId clientSecret env db raw s
    unfold handleSocialQualifyFormDb
    split
    · simp
    · simp
    · split
      · simp
      · unfold qualifyCoreDb
        split
        · simp
        · split
          · simp
          · split <;> simp
          · split <;> simp
  · intro parse decode db raw s
    unfold handleCheckUserExistsDb
    split
    · simp
    · simp
    · split
      · split
        · simp
        · split <;> simp
      · simp
  · intro parse decode db raw s
    unfold handleContractorRequestDb
    split
    · simp
    · simp
    · split
      · simp
      · unfold contractorCoreDb
        split
        · simp
        · split
          · simp
          · split <;> simp
        · unfold contractorCore
          split
          · simp
          · split <;> simp
  · intro msg stack env
    exact ⟨rfl, rfl⟩

/-- Witness for C10 at a handler-produced 500 (a thrown existence query)
and at the error boundary. -/
theorem c10_witness :
    ((handleCheckUserExistsDb noCheckParse noDecode (.queryFailure "db down")
        (.obj ⟨some "a@b.com", some "+1"⟩) Store.empty).status = 200 ↔
     (handleCheckUserExistsDb noCheckParse noDecode (.queryFailure "db down")
        (.obj ⟨some "a@b.com", some "+1"⟩) Store.empty).success = true) ∧
    handleCheckUserExistsDb noCheckParse noDecode (.queryFailure "db down")
        (.obj ⟨some "a@b.com", some "+1"⟩) Store.empty =
      ⟨500, false, some (internalErrorMsg "db down"), none⟩ ∧
    (globalErrorHandler "boom" "trace" none).1 = 500 ∧
    (globalErrorHandler "boom" "trace" none).2.success = false :=
  ⟨c10_success_iff_status200.2.1 noCheckParse noDecode
     (.queryFailure "db down") (.obj ⟨some "a@b.com", some "+1"⟩)
     Store.empty,
   by decide,
   c10_success_iff_status200.2.2.2 "boom" "trace" none⟩

end Intake
